import Mathlib

/-!
Verification of the yt-downloader backend (src/backend/main.py) against its
natural-language specification.  The Python handlers are shallowly embedded:
the filesystem is explicit state, the external extractor and the spawned
child process are parameters, and the streaming generator `iterfile` is a
function from the child's chunk sequence and a termination event to the
emitted chunks, a trace of relay actions, and the final filesystem state.
-/

set_option autoImplicit false

namespace YtDownloader

/-- Filesystem state: the set of existing paths (as a list without meaningful
duplicates), a counter supplying fresh temporary names (modelling
`tempfile.NamedTemporaryFile`'s unique-name guarantee), and a fault flag that
makes artifact creation raise (disk full / permission denied). -/
structure FS where
  files : List String
  nextId : Nat
  writeFails : Bool
deriving DecidableEq, Repr

/-- The unique name `tempfile.NamedTemporaryFile(suffix='.txt')` hands out for
the `n`-th temporary file. -/
def tempName (n : Nat) : String :=
  "/tmp/tmp" ++ Nat.repr n ++ ".txt"

/-- `os.unlink` on a path that exists: every occurrence of the path is gone. -/
def FS.unlink (fs : FS) (p : String) : FS :=
  { fs with files := fs.files.filter (fun q => decide (q ≠ p)) }

/-- `os.unlink`: removes the path, raising `FileNotFoundError` when absent. -/
def os_unlink (fs : FS) (p : String) : Except String FS :=
  if p ∈ fs.files then Except.ok (fs.unlink p)
  else Except.error "FileNotFoundError"

/-- One `logger.*` call. -/
inductive LogEvent where
  | warning (msg : String)
  | error (msg : String)
  | logged (msg : String)
deriving DecidableEq, Repr

def no_cookies_warning : String := "No cookies content provided!"

def cookie_error_log : String := "Error creating cookie file"

def cookie_log_msg (s : String) : String :=
  "Creating cookie file with " ++ Nat.repr s.length ++ " chars"

/-- Result of `create_cookie_file`: the returned path (or `None`), the
filesystem afterwards, and the log lines written. -/
structure CreateResult where
  path : Option String
  fs : FS
  logs : List LogEvent
deriving DecidableEq, Repr

/-- `create_cookie_file` (main.py lines 33-47): falsy content (absent or the
empty string) logs a warning and yields no artifact; a filesystem fault is
caught, logged, and also yields no artifact; otherwise a uniquely named
temporary file holding the blob is created and its path returned. -/
def create_cookie_file (cookies_content : Option String) (fs : FS) : CreateResult :=
  match cookies_content with
  | none => ⟨none, fs, [LogEvent.warning no_cookies_warning]⟩
  | some s =>
    if s = "" then ⟨none, fs, [LogEvent.warning no_cookies_warning]⟩
    else if fs.writeFails then ⟨none, fs, [LogEvent.error cookie_error_log]⟩
    else
      ⟨some (tempName fs.nextId),
       { files := tempName fs.nextId :: fs.files, nextId := fs.nextId + 1,
         writeFails := fs.writeFails },
       [LogEvent.logged (cookie_log_msg s)]⟩

/-- The `finally` cleanup of `get_video_info` (lines 94-97) and the `except`
cleanup of `download_video` (lines 162-163):
`if cookie_file and os.path.exists(cookie_file): os.unlink(cookie_file)`. -/
def info_finally (cookie_file : Option String) (fs : FS) : FS :=
  match cookie_file with
  | none => fs
  | some p => if p = "" then fs else if p ∈ fs.files then fs.unlink p else fs

/-- The same guarded cleanup, with `os.unlink`'s possible exception made
explicit, to state that the guard makes the step raise-free. -/
def guarded_unlink (cookie_file : Option String) (fs : FS) : Except String FS :=
  match cookie_file with
  | none => Except.ok fs
  | some p =>
    if p = "" then Except.ok fs
    else if p ∈ fs.files then os_unlink fs p else Except.ok fs

/-! ## Metadata extraction (`/info`) -/

/-- One entry of the extractor's `formats` list.  `vcodec`/`acodec` are
`none` when the key is absent from the dict (Python `f.get(...)` yields
`None` there); `format_id` and `ext` are accessed with `f[...]` and so are
required. -/
structure FormatEntry where
  format_id : String
  ext : String
  vcodec : Option String
  acodec : Option String
  resolution : Option String
  filesize : Option Nat
  format_note : Option String
deriving DecidableEq, Repr

/-- The dict appended for a surviving format (lines 75-81). -/
structure SurfacedFormat where
  format_id : String
  ext : String
  resolution : String
  filesize : Option Nat
  note : Option String
deriving DecidableEq, Repr

/-- Line 74: `f.get('vcodec') != 'none' and f.get('acodec') != 'none'`. -/
def combined_filter (f : FormatEntry) : Bool :=
  decide (f.vcodec ≠ some "none") && decide (f.acodec ≠ some "none")

/-- Lines 75-81: the surfaced record for one format. -/
def surface (f : FormatEntry) : SurfacedFormat :=
  { format_id := f.format_id, ext := f.ext,
    resolution := f.resolution.getD "unknown",
    filesize := f.filesize, note := f.format_note }

/-- The loop of lines 72-81: keep the formats passing `combined_filter`, in
the extractor's order. -/
def select_formats : List FormatEntry → List SurfacedFormat
  | [] => []
  | f :: rest =>
    if combined_filter f then surface f :: select_formats rest
    else select_formats rest

/-- Modelled from the spec: a format "has a video component" when a video
codec is present in the entry and is an actual codec (the extractor marks the
absence of video with the literal string "none").  An entry lacking the
video-codec field does not exhibit a video component. -/
def has_video_component (f : FormatEntry) : Bool :=
  match f.vcodec with
  | some c => decide (c ≠ "none")
  | none => false

/-- Modelled from the spec: a format "has an audio component", symmetric to
`has_video_component`. -/
def has_audio_component (f : FormatEntry) : Bool :=
  match f.acodec with
  | some c => decide (c ≠ "none")
  | none => false

/-- The extractor's output dict, restricted to the keys the service reads
(plus `duration`, which the spec says the response carries). -/
structure InfoDict where
  title : Option String
  thumbnail : Option String
  duration : Option Nat
  formats : List FormatEntry
deriving DecidableEq, Repr

/-- A JSON value as it appears in the `/info` response body. -/
inductive JsonVal where
  | str (s : String)
  | num (n : Nat)
  | null
  | fmts (l : List SurfacedFormat)
deriving DecidableEq, Repr

def opt_str : Option String → JsonVal
  | some s => JsonVal.str s
  | none => JsonVal.null

/-- The dict literal returned on success (lines 83-87), as an ordered
key-value list. -/
def info_success_body (d : InfoDict) : List (String × JsonVal) :=
  [("title", opt_str d.title),
   ("thumbnail", opt_str d.thumbnail),
   ("formats", JsonVal.fmts (select_formats d.formats))]

/-- Whether `needle` is a prefix of `hay` (character lists). -/
def list_is_pref : List Char → List Char → Bool
  | [], _ => true
  | _ :: _, [] => false
  | a :: as, b :: bs => a == b && list_is_pref as bs

/-- Whether `needle` occurs as a contiguous sublist of the second argument. -/
def list_contains_sub (needle : List Char) : List Char → Bool
  | [] => needle.isEmpty
  | c :: rest => list_is_pref needle (c :: rest) || list_contains_sub needle rest

/-- Python's `needle in hay` on strings. -/
def str_contains (hay needle : String) : Bool :=
  list_contains_sub needle.data hay.data

/-- The fixed instructive message of line 92. -/
def auth_required_detail : String :=
  "YouTube requires authentication. Please ensure cookies are sent."

/-- Outcome of the `/info` handler: a 200 JSON body or an `HTTPException`. -/
inductive InfoResult where
  | ok (body : List (String × JsonVal))
  | httpError (status : Nat) (detail : String)
deriving DecidableEq, Repr

/-- `get_video_info` (lines 53-97).  The external extractor is a parameter
taking the url and the cookie-file path; its failure carries `str(e)`.  The
`finally` block runs on both the success and the exception path. -/
def get_video_info (url : String) (cookies : Option String)
    (extract : String → Option String → Except String InfoDict)
    (fs : FS) : InfoResult × FS :=
  let r := create_cookie_file cookies fs
  let resp :=
    match extract url r.path with
    | Except.ok d => InfoResult.ok (info_success_body d)
    | Except.error e =>
      if str_contains e "Sign in" then InfoResult.httpError 400 auth_required_detail
      else InfoResult.httpError 400 e
  (resp, info_finally r.path r.fs)

/-! ## Download relay (`/download` and `iterfile`) -/

/-- How one run of the `iterfile` generator ends:
* `complete` — the consumer drains the generator and the child signals EOF;
* `readError k` — the `k`-th `proc.stdout.read` raises an `Exception`;
* `disconnect k` — the client disconnects after receiving the `k`-th chunk,
  so `GeneratorExit` is raised at the `k`-th suspended `yield`
  (`GeneratorExit` derives from `BaseException`, not `Exception`). -/
inductive StreamEvent where
  | complete
  | readError (k : Nat)
  | disconnect (k : Nat)
deriving DecidableEq, Repr

/-- The observable effects of `iterfile` (lines 135-152), in order.
`waitChild` never occurs in the code; it is in the vocabulary so that the
spec's "wait for the child to exit" step is expressible. -/
inductive RelayAction where
  | readChunk (n : Nat)
  | yieldChunk (c : List Nat)
  | closeStdout
  | killChild
  | waitChild
  | unlinkArtifact (p : String)
deriving DecidableEq, Repr

/-- The `while True` loop of lines 137-142 together with the
`except Exception` handler of lines 143-145, at read index `k`.  Returns the
actions performed, the chunks yielded to the client, and whether
`proc.kill()` ran.  A `readError` is caught and kills the child; a
`disconnect` (`GeneratorExit`) is not caught by `except Exception`, so the
generator just unwinds into its `finally`. -/
def iterfile_loop : List (List Nat) → Nat → StreamEvent → List RelayAction × List (List Nat) × Bool
  | [], k, ev =>
    if ev = StreamEvent.readError k then ([RelayAction.killChild], [], true)
    else ([RelayAction.readChunk 0, RelayAction.closeStdout], [], false)
  | c :: rest, k, ev =>
    if ev = StreamEvent.readError k then ([RelayAction.killChild], [], true)
    else if ev = StreamEvent.disconnect k then
      ([RelayAction.readChunk c.length, RelayAction.yieldChunk c], [c], false)
    else
      let r := iterfile_loop rest (k + 1) ev
      (RelayAction.readChunk c.length :: RelayAction.yieldChunk c :: r.1,
       c :: r.2.1, r.2.2)

/-- The read/yield action pairs of an uninterrupted pass over the child's
chunks. -/
def emit_actions : List (List Nat) → List RelayAction
  | [] => []
  | c :: rest => RelayAction.readChunk c.length :: RelayAction.yieldChunk c :: emit_actions rest

/-- The `finally` block of `iterfile` (lines 146-152): the guarded unlink,
with the inner `try/except: pass` swallowing any unlink error. -/
def iterfile_finally (cookie_file : Option String) (fs : FS) : FS × List RelayAction :=
  match cookie_file with
  | none => (fs, [])
  | some p =>
    if p = "" then (fs, [])
    else if p ∈ fs.files then
      match os_unlink fs p with
      | Except.ok fs2 => (fs2, [RelayAction.unlinkArtifact p])
      | Except.error _ => (fs, [])
    else (fs, [])

/-- Everything one run of the `iterfile` generator produces. -/
structure IterRun where
  emitted : List (List Nat)
  trace : List RelayAction
  fsAfter : FS
deriving DecidableEq, Repr

/-- One complete run of the `iterfile` generator: the loop (with its
`except Exception` handler) followed by the `finally` cleanup, which runs on
every termination path. -/
def iterfile_run (chunks : List (List Nat)) (ev : StreamEvent)
    (cookie_file : Option String) (fs : FS) : IterRun :=
  let r := iterfile_loop chunks 0 ev
  let c := iterfile_finally cookie_file fs
  ⟨r.2.1, r.1 ++ c.2, c.1⟩

/-- Lines 109-126: the `yt-dlp` command line.  A falsy `format_id` (absent
or empty) defaults to `best`; a cookie file appends `--cookies <path>`. -/
def yt_dlp_command (format_id : Option String) (url : String)
    (cookie_file : Option String) : List String :=
  let f_param :=
    match format_id with
    | some f => if f = "" then "best" else f
    | none => "best"
  let cmd := ["yt-dlp", "-f", f_param, "-o", "-", url]
  match cookie_file with
  | some p => if p = "" then cmd else cmd ++ ["--cookies", p]
  | none => cmd

/-- Outcome of the `/download` handler itself: either the immediately
returned `StreamingResponse` (status, media type, Content-Disposition, the
spawned command and the captured cookie path — the body is the still
unconsumed `iterfile` generator), or the 500 `HTTPException`. -/
inductive DownloadResult where
  | streaming (status : Nat) (media_type : String) (content_disposition : String)
      (cmd : List String) (cookie_file : Option String)
  | httpError (status : Nat) (detail : String)
deriving DecidableEq, Repr

/-- `download_video` (lines 99-164).  `spawn_ok` tells whether
`subprocess.Popen` succeeds; on failure the `except` block deletes the
cookie file (lines 162-163) and raises the 500.  On success the handler
returns the streaming response at once — the generator has not been run, so
no child output has been read and the cookie file has not been deleted. -/
def download_video (url : String) (cookies : Option String)
    (format_id : Option String) (spawn_ok : Bool) (fs : FS) : DownloadResult × FS :=
  let r := create_cookie_file cookies fs
  if spawn_ok then
    (DownloadResult.streaming 200 "video/mp4" "attachment; filename=\"video.mp4\""
      (yt_dlp_command format_id url r.path) r.path, r.fs)
  else
    (DownloadResult.httpError 500 "Download failed", info_finally r.path r.fs)

/-! ## Concrete fixtures used by counterexamples and witnesses -/

/-- An empty filesystem. -/
def ex_fs0 : FS := ⟨[], 0, false⟩

/-- A filesystem whose next artifact write fails. -/
def ex_fsW : FS := ⟨[], 5, true⟩

/-- An extractor format entry that lacks the `vcodec` key entirely while
carrying a real audio codec (an audio-only rendition as some extractors
enumerate it). -/
def ex_audio_only : FormatEntry :=
  ⟨"140", "m4a", none, some "mp4a.40.2", some "audio only", none, some "medium"⟩

/-- A concrete extractor result carrying a duration. -/
def ex_dict : InfoDict :=
  ⟨some "A Video", some "https://img.example/t.jpg", some 212,
   [⟨"22", "mp4", some "avc1.64001F", some "mp4a.40.2", some "1280x720", some 1000, some "hd"⟩]⟩

/-- An extractor that fails with a sign-in message. -/
def ex_sign_in_msg : String := "ERROR: Sign in to confirm you are not a bot"

def ex_extract_auth : String → Option String → Except String InfoDict :=
  fun _ _ => Except.error ex_sign_in_msg

/-- An extractor that succeeds with `ex_dict`. -/
def ex_extract_ok : String → Option String → Except String InfoDict :=
  fun _ _ => Except.ok ex_dict

/-! ## Helper lemmas -/

theorem not_mem_filter_ne (l : List String) (p : String) :
    p ∉ l.filter (fun q => decide (q ≠ p)) := by
  simp [List.mem_filter]

theorem filter_ne_of_not_mem (l : List String) (p : String) (h : p ∉ l) :
    l.filter (fun q => decide (q ≠ p)) = l := by
  induction l with
  | nil => rfl
  | cons a as ih =>
    simp only [List.mem_cons, not_or] at h
    have ha : a ≠ p := fun e => h.1 e.symm
    rw [List.filter_cons, if_pos (by simp [ha]), ih h.2]

theorem tempName_ne (n : Nat) : tempName n ≠ "" := by
  intro h
  have hl : (tempName n).length = 0 := by simp [h]
  rw [tempName, String.length_append, String.length_append] at hl
  have h8 : ("/tmp/tmp" : String).length = 8 := rfl
  have h4 : (".txt" : String).length = 4 := rfl
  rw [h8, h4] at hl
  omega

theorem info_finally_mem (p : String) (fs : FS) (hp : p ≠ "") (hm : p ∈ fs.files) :
    info_finally (some p) fs = fs.unlink p := by
  simp [info_finally, hp, hm]

theorem info_finally_not_mem (p : String) (fs : FS) (hp : p ≠ "") (hm : p ∉ fs.files) :
    info_finally (some p) fs = fs := by
  simp [info_finally, hp, hm]

theorem iterfile_finally_mem (p : String) (fs : FS) (hp : p ≠ "") (hm : p ∈ fs.files) :
    iterfile_finally (some p) fs = (fs.unlink p, [RelayAction.unlinkArtifact p]) := by
  simp [iterfile_finally, os_unlink, hp, hm]

theorem iterfile_finally_not_mem (p : String) (fs : FS) (hp : p ≠ "") (hm : p ∉ fs.files) :
    iterfile_finally (some p) fs = (fs, []) := by
  simp [iterfile_finally, hp, hm]

theorem unlink_cons_fresh (p : String) (l : List String) (n : Nat) (b : Bool)
    (h : p ∉ l) : (FS.mk (p :: l) n b).unlink p = FS.mk l n b := by
  have hcons : (p :: l).filter (fun q => decide (q ≠ p)) = l := by
    rw [List.filter_cons, if_neg (by simp), filter_ne_of_not_mem l p h]
  simp only [FS.unlink]
  rw [hcons]

theorem combined_filter_eq (f : FormatEntry) :
    combined_filter f = true ↔ (f.vcodec ≠ some "none" ∧ f.acodec ≠ some "none") := by
  simp [combined_filter]

theorem select_formats_eq (l : List FormatEntry) :
    select_formats l = (l.filter combined_filter).map surface := by
  induction l with
  | nil => rfl
  | cons f rest ih =>
    by_cases h : combined_filter f <;> simp [select_formats, List.filter_cons, h, ih]

theorem iterfile_loop_complete (chunks : List (List Nat)) (k : Nat) :
    iterfile_loop chunks k StreamEvent.complete =
      (emit_actions chunks ++ [RelayAction.readChunk 0, RelayAction.closeStdout],
       chunks, false) := by
  induction chunks generalizing k with
  | nil => rfl
  | cons c rest ih => simp [iterfile_loop, emit_actions, ih]

theorem waitChild_not_mem_emit (chunks : List (List Nat)) :
    RelayAction.waitChild ∉ emit_actions chunks := by
  induction chunks with
  | nil => simp [emit_actions]
  | cons c rest ih => simp [emit_actions, ih]

theorem killChild_not_mem_emit (chunks : List (List Nat)) :
    RelayAction.killChild ∉ emit_actions chunks := by
  induction chunks with
  | nil => simp [emit_actions]
  | cons c rest ih => simp [emit_actions, ih]

theorem iterfile_run_fsAfter (chunks : List (List Nat)) (ev : StreamEvent)
    (cf : Option String) (fs : FS) :
    (iterfile_run chunks ev cf fs).fsAfter = (iterfile_finally cf fs).1 := rfl

/-! ## Claim theorems -/

/-- C8: for every (non-empty) artifact path, the guarded artifact-deletion
step of `get_video_info`'s `finally` never raises, running it twice leaves
the filesystem exactly as running it once, and the path is absent
afterwards; the same holds for the deletion step in `iterfile`'s `finally`. -/
theorem c8_cleanup_idempotent (p : String) (fs : FS) (hp : p ≠ "") :
    guarded_unlink (some p) fs = Except.ok (info_finally (some p) fs) ∧
    info_finally (some p) (info_finally (some p) fs) = info_finally (some p) fs ∧
    p ∉ (info_finally (some p) fs).files ∧
    (iterfile_finally (some p) (iterfile_finally (some p) fs).1).1 =
      (iterfile_finally (some p) fs).1 ∧
    p ∉ ((iterfile_finally (some p) fs).1).files := by
  by_cases hm : p ∈ fs.files
  · have hnm : p ∉ (fs.unlink p).files := not_mem_filter_ne fs.files p
    refine ⟨?_, ?_, ?_, ?_, ?_⟩
    · simp [guarded_unlink, os_unlink, info_finally, hp, hm]
    · rw [info_finally_mem p fs hp hm, info_finally_not_mem p (fs.unlink p) hp hnm]
    · rw [info_finally_mem p fs hp hm]; exact hnm
    · rw [iterfile_finally_mem p fs hp hm]
      simp only
      rw [iterfile_finally_not_mem p (fs.unlink p) hp hnm]
    · rw [iterfile_finally_mem p fs hp hm]; exact hnm
  · refine ⟨?_, ?_, ?_, ?_, ?_⟩
    · simp [guarded_unlink, info_finally, hp, hm]
    · rw [info_finally_not_mem p fs hp hm, info_finally_not_mem p fs hp hm]
    · rw [info_finally_not_mem p fs hp hm]; exact hm
    · rw [iterfile_finally_not_mem p fs hp hm]
      simp only
      rw [iterfile_finally_not_mem p fs hp hm]
    · rw [iterfile_finally_not_mem p fs hp hm]; exact hm

/-- C8 witness: the properties at a concrete path and filesystem. -/
theorem c8_witness :
    tempName 0 ≠ "" ∧
    (guarded_unlink (some (tempName 0)) ⟨[tempName 0], 1, false⟩ =
       Except.ok (info_finally (some (tempName 0)) ⟨[tempName 0], 1, false⟩) ∧
     info_finally (some (tempName 0))
         (info_finally (some (tempName 0)) ⟨[tempName 0], 1, false⟩) =
       info_finally (some (tempName 0)) ⟨[tempName 0], 1, false⟩ ∧
     tempName 0 ∉ (info_finally (some (tempName 0)) ⟨[tempName 0], 1, false⟩).files ∧
     (iterfile_finally (some (tempName 0))
         (iterfile_finally (some (tempName 0)) ⟨[tempName 0], 1, false⟩).1).1 =
       (iterfile_finally (some (tempName 0)) ⟨[tempName 0], 1, false⟩).1 ∧
     tempName 0 ∉ ((iterfile_finally (some (tempName 0)) ⟨[tempName 0], 1, false⟩).1).files) :=
  ⟨by decide, c8_cleanup_idempotent (tempName 0) ⟨[tempName 0], 1, false⟩ (by decide)⟩

/-- C4 counterexample: the surfaced formats list contains an entry for a
source format that has no video component (its video-codec key is absent and
it is an audio-only rendition), so "included if and only if both a video and
an audio component are present" fails as stated. -/
theorem c4_counterexample :
    select_formats [ex_audio_only] = [surface ex_audio_only] ∧
    has_video_component ex_audio_only = false := by
  constructor <;> rfl

/-- C4 (amended): an extractor format survives the `/info` filter if and
only if neither its video-codec field nor its audio-codec field is the
literal string "none" (formats explicitly marked video-only or audio-only
are excluded; a format whose codec key is absent is not excluded), and the
surviving entries keep the extractor's original order (the kept source
entries form a sublist of the input). -/
theorem c4_amended_combined_filter (l : List FormatEntry) (f : FormatEntry) :
    select_formats l = (l.filter combined_filter).map surface ∧
    List.Sublist (l.filter combined_filter) l ∧
    (combined_filter f = true ↔ (f.vcodec ≠ some "none" ∧ f.acodec ≠ some "none")) :=
  ⟨select_formats_eq l, List.filter_sublist l, combined_filter_eq f⟩

/-- C9: the `/info` filter excludes a format only when one of its codec
fields is present and equal to "none"; an entry lacking the video-codec key
(or the audio-codec key) passes the filter, provided the other field does
not mark the complementary component absent, and is then included in the
surfaced list. -/
theorem c9_missing_key_passes (f : FormatEntry) (l : List FormatEntry) :
    (combined_filter f = false → f.vcodec = some "none" ∨ f.acodec = some "none") ∧
    (f.vcodec = none → f.acodec ≠ some "none" →
      combined_filter f = true ∧
      select_formats (f :: l) = surface f :: select_formats l) ∧
    (f.acodec = none → f.vcodec ≠ some "none" →
      combined_filter f = true ∧
      select_formats (f :: l) = surface f :: select_formats l) := by
  refine ⟨?_, ?_, ?_⟩
  · intro h
    by_contra hc
    push_neg at hc
    simp [combined_filter, hc.1, hc.2] at h
  · intro hv ha
    have hcf : combined_filter f = true := by simp [combined_filter, hv, ha]
    exact ⟨hcf, by simp [select_formats, hcf]⟩
  · intro ha hv
    have hcf : combined_filter f = true := by simp [combined_filter, ha, hv]
    exact ⟨hcf, by simp [select_formats, hcf]⟩

/-- C9 witness: a concrete entry with no `vcodec` key passes the filter and
is surfaced. -/
theorem c9_witness :
    ex_audio_only.vcodec = none ∧ ex_audio_only.acodec ≠ some "none" ∧
    combined_filter ex_audio_only = true ∧
    select_formats (ex_audio_only :: []) = surface ex_audio_only :: select_formats [] :=
  ⟨rfl, by decide,
   ((c9_missing_key_passes ex_audio_only []).2.1 rfl (by decide)).1,
   ((c9_missing_key_passes ex_audio_only []).2.1 rfl (by decide)).2⟩

/-- C5: whenever the extractor fails with a message containing "Sign in",
`/info` answers HTTP 400 with the fixed instructive detail
`auth_required_detail`, a constant independent of the raw extractor text. -/
theorem c5_auth_cue_suppressed (url : String) (cookies : Option String) (fs : FS)
    (e : String) (extract : String → Option String → Except String InfoDict)
    (hext : extract url (create_cookie_file cookies fs).path = Except.error e)
    (hcue : str_contains e "Sign in" = true) :
    (get_video_info url cookies extract fs).1 =
      InfoResult.httpError 400 auth_required_detail := by
  simp [get_video_info, hext, hcue]

/-- C5 witness: a concrete sign-in failure is mapped to the fixed 400. -/
theorem c5_witness :
    ex_extract_auth "https://y" (create_cookie_file none ex_fs0).path =
      Except.error ex_sign_in_msg ∧
    str_contains ex_sign_in_msg "Sign in" = true ∧
    (get_video_info "https://y" none ex_extract_auth ex_fs0).1 =
      InfoResult.httpError 400 auth_required_detail :=
  ⟨rfl, by decide,
   c5_auth_cue_suppressed "https://y" none ex_fs0 ex_sign_in_msg ex_extract_auth rfl (by decide)⟩

/-- C6 counterexample: the extractor reports a duration, yet the success
body of `/info` has no "duration" key — the claim that the response contains
the duration field fails. -/
theorem c6_counterexample :
    ex_dict.duration = some 212 ∧
    (info_success_body ex_dict).lookup "duration" = none := by
  constructor <;> rfl

/-- C6 (amended): the `/info` success body contains exactly the fields
title, thumbnail and formats (title and thumbnail possibly null); the
duration reported by the extractor is not included. -/
theorem c6_amended_fields (d : InfoDict) :
    (info_success_body d).lookup "title" = some (opt_str d.title) ∧
    (info_success_body d).lookup "thumbnail" = some (opt_str d.thumbnail) ∧
    (info_success_body d).lookup "formats" =
      some (JsonVal.fmts (select_formats d.formats)) ∧
    (info_success_body d).lookup "duration" = none := by
  refine ⟨rfl, ?_, ?_, ?_⟩ <;> rfl

/-- C7: an explicitly empty credential blob yields no artifact and a logged
warning, and both handlers behave exactly as with no credentials at all; a
filesystem failure while writing the artifact likewise yields no artifact
(with a logged error) and both handlers proceed without credentials instead
of aborting. -/
theorem c7_degrade_gracefully (url s : String)
    (extract : String → Option String → Except String InfoDict)
    (fid : Option String) (sp : Bool) (fs fsf : FS)
    (hs : s ≠ "") (hw : fsf.writeFails = true) :
    create_cookie_file (some "") fs = ⟨none, fs, [LogEvent.warning no_cookies_warning]⟩ ∧
    get_video_info url (some "") extract fs = get_video_info url none extract fs ∧
    download_video url (some "") fid sp fs = download_video url none fid sp fs ∧
    create_cookie_file (some s) fsf = ⟨none, fsf, [LogEvent.error cookie_error_log]⟩ ∧
    get_video_info url (some s) extract fsf = get_video_info url none extract fsf ∧
    download_video url (some s) fid sp fsf = download_video url none fid sp fsf := by
  refine ⟨?_, ?_, ?_, ?_, ?_, ?_⟩ <;>
    simp [create_cookie_file, get_video_info, download_video, hs, hw]

/-- C7 witness: the properties at concrete inputs, both for the empty blob
and for a filesystem whose artifact write fails. -/
theorem c7_witness :
    ("abc" : String) ≠ "" ∧ ex_fsW.writeFails = true ∧
    (create_cookie_file (some "") ex_fs0 =
       ⟨none, ex_fs0, [LogEvent.warning no_cookies_warning]⟩ ∧
     get_video_info "u" (some "") ex_extract_auth ex_fs0 =
       get_video_info "u" none ex_extract_auth ex_fs0 ∧
     download_video "u" (some "") none true ex_fs0 =
       download_video "u" none none true ex_fs0 ∧
     create_cookie_file (some "abc") ex_fsW =
       ⟨none, ex_fsW, [LogEvent.error cookie_error_log]⟩ ∧
     get_video_info "u" (some "abc") ex_extract_auth ex_fsW =
       get_video_info "u" none ex_extract_auth ex_fsW ∧
     download_video "u" (some "abc") none true ex_fsW =
       download_video "u" none none true ex_fsW) :=
  ⟨by decide, rfl,
   c7_degrade_gracefully "u" "abc" ex_extract_auth none true ex_fs0 ex_fsW (by decide) rfl⟩

/-- C10: when the child process spawns, `/download` immediately returns the
streaming 200 response with Content-Type video/mp4 and the fixed attachment
filename — the response is built from the request alone, before any child
output is read (the child's output is no argument of the handler at all);
a child producing no bytes yields an empty streamed body under that same
200 response; and the 500 "Download failed" answer arises exactly when
spawning fails. -/
theorem c10_spawn_paths (url : String) (cookies : Option String) (fid : Option String)
    (fs : FS) (cf : Option String) (fs2 : FS) :
    (download_video url cookies fid true fs).1 =
      DownloadResult.streaming 200 "video/mp4" "attachment; filename=\"video.mp4\""
        (yt_dlp_command fid url (create_cookie_file cookies fs).path)
        (create_cookie_file cookies fs).path ∧
    (iterfile_run [] StreamEvent.complete cf fs2).emitted = [] ∧
    (download_video url cookies fid false fs).1 =
      DownloadResult.httpError 500 "Download failed" :=
  ⟨rfl, rfl, rfl⟩

/-- C1 counterexample: a concrete `/download` request with a non-empty
credential blob and a successful spawn — at the moment the handler returns,
the temporary credential file still exists on the filesystem, so the claim
that it is gone when the request-handling call returns is false. -/
theorem c1_counterexample :
    tempName 0 ∈ ((download_video "https://v" (some "cookiedata") none true ex_fs0).2).files := by
  decide

/-- C1 (amended): with a non-empty credential blob (and a writable
filesystem), exactly one temporary credential file is created before the
extractor/relay is invoked.  For `/info` it is gone when the handler
returns, success or failure.  For `/download` with a successful spawn the
file still exists when the handler returns and is deleted when the response
stream terminates (under every termination event); on a spawn failure it is
deleted before the handler returns. -/
theorem c1_amended_lifecycle (url s : String)
    (extract : String → Option String → Except String InfoDict)
    (fid : Option String) (chunks : List (List Nat)) (ev : StreamEvent) (fs : FS)
    (hs : s ≠ "") (hw : fs.writeFails = false) (hf : tempName fs.nextId ∉ fs.files) :
    create_cookie_file (some s) fs =
      ⟨some (tempName fs.nextId),
       ⟨tempName fs.nextId :: fs.files, fs.nextId + 1, fs.writeFails⟩,
       [LogEvent.logged (cookie_log_msg s)]⟩ ∧
    ((get_video_info url (some s) extract fs).2).files = fs.files ∧
    ((download_video url (some s) fid true fs).2).files = tempName fs.nextId :: fs.files ∧
    ((iterfile_run chunks ev (some (tempName fs.nextId))
        (download_video url (some s) fid true fs).2).fsAfter).files = fs.files ∧
    ((download_video url (some s) fid false fs).2).files = fs.files := by
  have hc : create_cookie_file (some s) fs =
      ⟨some (tempName fs.nextId),
       ⟨tempName fs.nextId :: fs.files, fs.nextId + 1, fs.writeFails⟩,
       [LogEvent.logged (cookie_log_msg s)]⟩ := by
    simp [create_cookie_file, hs, hw]
  have hmem : tempName fs.nextId ∈
      (FS.mk (tempName fs.nextId :: fs.files) (fs.nextId + 1) fs.writeFails).files :=
    List.mem_cons_self _ _
  have hfin : info_finally (some (tempName fs.nextId))
      (FS.mk (tempName fs.nextId :: fs.files) (fs.nextId + 1) fs.writeFails) =
      FS.mk fs.files (fs.nextId + 1) fs.writeFails := by
    rw [info_finally_mem _ _ (tempName_ne _) hmem, unlink_cons_fresh _ _ _ _ hf]
  have hiter : (iterfile_finally (some (tempName fs.nextId))
      (FS.mk (tempName fs.nextId :: fs.files) (fs.nextId + 1) fs.writeFails)).1 =
      FS.mk fs.files (fs.nextId + 1) fs.writeFails := by
    rw [iterfile_finally_mem _ _ (tempName_ne _) hmem]
    exact unlink_cons_fresh _ _ _ _ hf
  refine ⟨hc, ?_, ?_, ?_, ?_⟩
  · simp only [get_video_info, hc]
    rw [hfin]
  · simp only [download_video, hc, if_pos]
  · simp only [download_video, hc, if_pos, iterfile_run_fsAfter]
    rw [hiter]
  · simp only [download_video, hc, Bool.false_eq_true, if_false]
    rw [hfin]

/-- C1 witness: the amended lifecycle at a concrete request. -/
theorem c1_witness :
    ("abc" : String) ≠ "" ∧ ex_fs0.writeFails = false ∧
    tempName ex_fs0.nextId ∉ ex_fs0.files ∧
    (create_cookie_file (some "abc") ex_fs0 =
       ⟨some (tempName ex_fs0.nextId),
        ⟨tempName ex_fs0.nextId :: ex_fs0.files, ex_fs0.nextId + 1, ex_fs0.writeFails⟩,
        [LogEvent.logged (cookie_log_msg "abc")]⟩ ∧
     ((get_video_info "u" (some "abc") ex_extract_ok ex_fs0).2).files = ex_fs0.files ∧
     ((download_video "u" (some "abc") none true ex_fs0).2).files =
       tempName ex_fs0.nextId :: ex_fs0.files ∧
     ((iterfile_run [[1]] StreamEvent.complete (some (tempName ex_fs0.nextId))
         (download_video "u" (some "abc") none true ex_fs0).2).fsAfter).files = ex_fs0.files ∧
     ((download_video "u" (some "abc") none false ex_fs0).2).files = ex_fs0.files) :=
  ⟨by decide, rfl, by decide,
   c1_amended_lifecycle "u" "abc" ex_extract_ok none [[1]] StreamEvent.complete ex_fs0
     (by decide) rfl (by decide)⟩

/-- C2: at a concrete `/download` run where the client disconnects after the
first chunk (a `GeneratorExit` at the first suspended yield), the relay
performs no `proc.kill()` — `except Exception` does not catch
`GeneratorExit` — while the `finally` block still deletes the credential
artifact.  This exhibits the code bug: the spec requires a forceful kill of
the child on client disconnect. -/
theorem c2_disconnect_no_kill :
    RelayAction.killChild ∉
      (iterfile_run [[1, 2, 3], [4, 5]] (StreamEvent.disconnect 0)
        (some (tempName 0)) ⟨[tempName 0], 1, false⟩).trace ∧
    (iterfile_run [[1, 2, 3], [4, 5]] (StreamEvent.disconnect 0)
        (some (tempName 0)) ⟨[tempName 0], 1, false⟩).emitted = [[1, 2, 3]] ∧
    RelayAction.unlinkArtifact (tempName 0) ∈
      (iterfile_run [[1, 2, 3], [4, 5]] (StreamEvent.disconnect 0)
        (some (tempName 0)) ⟨[tempName 0], 1, false⟩).trace ∧
    tempName 0 ∉
      ((iterfile_run [[1, 2, 3], [4, 5]] (StreamEvent.disconnect 0)
        (some (tempName 0)) ⟨[tempName 0], 1, false⟩).fsAfter).files := by
  decide

/-- C3 counterexample: on a concrete normal completion, the relay trace
contains no wait-for-child step at all, refuting the claimed sequence
"close read handle, wait for the child to exit, then delete". -/
theorem c3_counterexample :
    RelayAction.waitChild ∉
      (iterfile_run [[1, 2, 3]] StreamEvent.complete
        (some (tempName 0)) ⟨[tempName 0], 1, false⟩).trace := by
  decide

/-- C3 (amended): on normal completion the relay reads and forwards every
chunk in order, stops at the zero-length read, closes its own read handle,
and then deletes the credential artifact when one was used; it never waits
for the child process to exit (and never kills it), and the artifact is
absent afterwards. -/
theorem c3_amended_normal_completion (chunks : List (List Nat)) (p : String) (fs : FS)
    (hp : p ≠ "") (hm : p ∈ fs.files) :
    iterfile_run chunks StreamEvent.complete (some p) fs =
      ⟨chunks,
       emit_actions chunks ++
         [RelayAction.readChunk 0, RelayAction.closeStdout, RelayAction.unlinkArtifact p],
       fs.unlink p⟩ ∧
    RelayAction.waitChild ∉ (iterfile_run chunks StreamEvent.complete (some p) fs).trace ∧
    RelayAction.killChild ∉ (iterfile_run chunks StreamEvent.complete (some p) fs).trace ∧
    p ∉ ((iterfile_run chunks StreamEvent.complete (some p) fs).fsAfter).files := by
  have h1 : iterfile_run chunks StreamEvent.complete (some p) fs =
      ⟨chunks,
       emit_actions chunks ++
         [RelayAction.readChunk 0, RelayAction.closeStdout, RelayAction.unlinkArtifact p],
       fs.unlink p⟩ := by
    simp only [iterfile_run, iterfile_loop_complete, iterfile_finally_mem p fs hp hm]
    simp [List.append_assoc]
  refine ⟨h1, ?_, ?_, ?_⟩ <;> rw [h1]
  · simp [waitChild_not_mem_emit]
  · simp [killChild_not_mem_emit]
  · exact not_mem_filter_ne fs.files p

/-- C3 witness: the amended normal-completion behavior at a concrete run. -/
theorem c3_witness :
    tempName 0 ≠ "" ∧ tempName 0 ∈ ([tempName 0] : List String) ∧
    (iterfile_run [[7], [8, 9]] StreamEvent.complete (some (tempName 0))
        ⟨[tempName 0], 1, false⟩ =
      ⟨[[7], [8, 9]],
       emit_actions [[7], [8, 9]] ++
         [RelayAction.readChunk 0, RelayAction.closeStdout,
          RelayAction.unlinkArtifact (tempName 0)],
       (FS.mk [tempName 0] 1 false).unlink (tempName 0)⟩ ∧
     RelayAction.waitChild ∉
       (iterfile_run [[7], [8, 9]] StreamEvent.complete (some (tempName 0))
         ⟨[tempName 0], 1, false⟩).trace ∧
     RelayAction.killChild ∉
       (iterfile_run [[7], [8, 9]] StreamEvent.complete (some (tempName 0))
         ⟨[tempName 0], 1, false⟩).trace ∧
     tempName 0 ∉
       ((iterfile_run [[7], [8, 9]] StreamEvent.complete (some (tempName 0))
         ⟨[tempName 0], 1, false⟩).fsAfter).files) :=
  ⟨by decide, by decide,
   c3_amended_normal_completion [[7], [8, 9]] (tempName 0) ⟨[tempName 0], 1, false⟩
     (by decide) (by decide)⟩

end YtDownloader
